import Mathlib

/-!
Verification of the document reconstruction and chunking pipeline in
src/extract_and_chunk.py (class PDFProcessor).  The Python code is embedded
shallowly: coordinates become rationals, Python exceptions (IndexError,
ZeroDivisionError, ValueError) become Option failures, and the mutable dict
rows_dict becomes a last-write-wins lookup over the input cell list.
-/

namespace ArchiCodeGuide

/-- A 2D point of the layout-analysis output, accessed via .x and .y in the
source.  Coordinates are modelled as rationals. -/
structure Point where
  x : ℚ
  y : ℚ
deriving DecidableEq

/-- One iteration of the ray-casting loop body in _is_point_in_polygon: state
is (inside, p1); vertex p2 is processed and becomes the next p1.  Inside the
outer test, p1.y = p2.y is impossible (the y-span condition
y > min and y <= max would be unsatisfiable), so the x-intercept xinters is
always freshly computed right before it is read, exactly as in the source. -/
def edgeStep (x y : ℚ) (st : Bool × Point) (p2 : Point) : Bool × Point :=
  let p1 := st.2
  let inside := st.1
  let inside2 :=
    if y > min p1.y p2.y ∧ y ≤ max p1.y p2.y ∧ x ≤ max p1.x p2.x then
      if p1.x = p2.x ∨ x ≤ (y - p1.y) * (p2.x - p1.x) / (p2.y - p1.y) + p1.x then
        !inside
      else inside
    else inside
  (inside2, p2)

/-- Model of _is_point_in_polygon (ray casting, even-odd rule).  The source
reads polygon[0] before the loop, which raises IndexError on an empty
polygon: modelled as none.  The loop for i in range(n+1) visits
polygon[i % n], i.e. the vertex sequence polygon ++ [polygon[0]], with
p1 initialised to polygon[0]; the first, degenerate edge (p0, p0) never
qualifies, as in the source. -/
def isPointInPolygon (point : ℚ × ℚ) (polygon : List Point) : Option Bool :=
  match polygon with
  | [] => none
  | p0 :: rest =>
    some (((p0 :: rest) ++ [p0]).foldl (edgeStep point.1 point.2) (false, p0)).1

/-- A bounding region of a paragraph or table: one polygon on one page. -/
structure BoundingRegion where
  polygon : List Point
deriving DecidableEq

/-- A paragraph of the analysis result: text content, optional role tag and
its bounding regions. -/
structure Paragraph where
  content : String
  role : Option String
  bounding_regions : List BoundingRegion
deriving DecidableEq

/-- The in-order scan over table_polygons in _is_paragraph_in_table: the
first polygon containing the point yields true; an IndexError raised by
_is_point_in_polygon on an empty polygon propagates as none; exhausting the
list yields false. -/
def anyPolygonContains (pt : ℚ × ℚ) : List (List Point) → Option Bool
  | [] => some false
  | tp :: tps =>
    match isPointInPolygon pt tp with
    | none => none
    | some true => some true
    | some false => anyPolygonContains pt tps

/-- Model of _is_paragraph_in_table.  Reading
regions[len(regions) // 2] raises IndexError when the region list is empty
(none); the centroid divisions raise ZeroDivisionError when the chosen
region has an empty polygon (none); otherwise the centroid of the midpoint
region is tested against every table polygon. -/
def isParagraphInTable (paragraph_bounding_regions : List BoundingRegion)
    (table_polygons : List (List Point)) : Option Bool :=
  match paragraph_bounding_regions[paragraph_bounding_regions.length / 2]? with
  | none => none
  | some centre_line =>
    let line_polygon := centre_line.polygon
    if line_polygon.length = 0 then none
    else
      let center_x := (line_polygon.map Point.x).sum / (line_polygon.length : ℚ)
      let center_y := (line_polygon.map Point.y).sum / (line_polygon.length : ℚ)
      anyPolygonContains (center_x, center_y) table_polygons

/-- One cell of a table as flattened in process_pdf:
row_index, column_index and content. -/
structure TableCell where
  row_index : Nat
  column_index : Nat
  content : String
deriving DecidableEq

/-- The running maximum max_row of convert_table_to_markdown, initialised
to 0 and folded over the cells in input order. -/
def max_row (table_data : List TableCell) : Nat :=
  table_data.foldl (fun m c => max m c.row_index) 0

/-- The running maximum max_col of convert_table_to_markdown, initialised
to 0 and folded over the cells in input order. -/
def max_col (table_data : List TableCell) : Nat :=
  table_data.foldl (fun m c => max m c.column_index) 0

/-- Model of str.strip(): drop whitespace characters from both ends of the
string. -/
def pyStrip (s : String) : String :=
  ⟨(((s.data.dropWhile Char.isWhitespace).reverse).dropWhile Char.isWhitespace).reverse⟩

/-- The dict lookup rows_dict[row_index].get(col_index, "") after the
insertion loop: repeated assignment to the same key means the LAST cell in
input order with the given coordinates wins; a missing key yields "".
pyStrip models the str.strip applied at insertion. -/
def gridCell (table_data : List TableCell) (r c : Nat) : String :=
  match (table_data.filter fun cell =>
      cell.row_index == r && cell.column_index == c).getLast? with
  | some cell => pyStrip cell.content
  | none => ""

/-- Step 2 of convert_table_to_markdown: the dense grid table_rows of size
(max_row + 1) x (max_col + 1). -/
def tableRows (table_data : List TableCell) : List (List String) :=
  (List.range (max_row table_data + 1)).map fun r =>
    (List.range (max_col table_data + 1)).map fun c => gridCell table_data r c

/-- The inner helper row_to_md of convert_table_to_markdown. -/
def row_to_md (row : List String) : String :=
  "| " ++ String.intercalate " | " row ++ " |"

/-- Model of convert_table_to_markdown.  The read table_rows[0] raises
IndexError when table_rows is empty (none); the separator repeats the cell
" --- |" len(table_rows[0]) times; header, separator and the remaining rows
are joined by newlines. -/
def convert_table_to_markdown (table_data : List TableCell) : Option String :=
  let table_rows := tableRows table_data
  match table_rows[0]? with
  | none => none
  | some header =>
    some (String.intercalate "\n"
      (row_to_md header ::
        ("|" ++ String.join (List.replicate header.length " --- |")) ::
        (table_rows.drop 1).map row_to_md))

/-- The right-to-left pass of replace_with_nearest_positive: returns the
final value of the loop variable last together with the rewritten array.
In the source: last = arr[i] = arr[i] if arr[i] != -1 else last, scanning
from the end. -/
def rightPass : List Int → Int × List Int
  | [] => (-1, [])
  | x :: xs =>
    let r := rightPass xs
    let v := if x ≠ -1 then x else r.1
    (v, v :: r.2)

/-- Model of replace_with_nearest_positive: right-to-left fill, then every
remaining -1 is replaced by the leftmost value different from -1 found in
the rewritten array (or -1 when there is none). -/
def replace_with_nearest_positive (arr : List Int) : List Int :=
  let arr1 := (rightPass arr).2
  let last := (arr1.find? fun x => x != -1).getD (-1)
  arr1.map fun x => if x = -1 then last else x

/-- Model of the Python builtin int(str) as used at line 164: optional
surrounding whitespace, optional single sign, then at least one decimal
digit; anything else raises ValueError (none). -/
def pyInt (s : String) : Option Int :=
  match (pyStrip s).data with
  | [] => none
  | c :: cs =>
    let signed := if c = '-' then (true, cs)
      else if c = '+' then (false, cs) else (false, c :: cs)
    let digits := signed.2
    if digits ≠ [] ∧ digits.all Char.isDigit then
      let n : Nat := digits.foldl (fun acc ch => acc * 10 + (ch.toNat - 48)) 0
      some (if signed.1 then -(n : Int) else (n : Int))
    else none

/-- A table of the analysis result: its cells and its bounding regions. -/
structure Table where
  cells : List TableCell
  bounding_regions : List BoundingRegion
deriving DecidableEq

/-- The analysis result handed to process_pdf by the layout service:
an ordered list of tables and an ordered list of paragraphs. -/
structure AnalysisResult where
  tables : List Table
  paragraphs : List Paragraph
deriving DecidableEq

/-- The flat table_polygons list collected in process_pdf: every bounding
region polygon of every table, in order. -/
def tablePolygonsOf (tables : List Table) : List (List Point) :=
  tables.flatMap fun table => table.bounding_regions.map BoundingRegion.polygon

/-- The survival predicate of the paragraph loop in process_pdf: a
paragraph is kept iff _is_paragraph_in_table returns False. -/
def survives (table_polygons : List (List Point)) (p : Paragraph) : Bool :=
  isParagraphInTable p.bounding_regions table_polygons == some false

/-- The paragraph-filtering loop of process_pdf: keep, in order, the
paragraphs not contained in any table; any IndexError or ZeroDivisionError
raised by the classifier aborts the whole pipeline (none). -/
def filterSurvivors (table_polygons : List (List Point)) :
    List Paragraph → Option (List Paragraph)
  | [] => some []
  | p :: ps =>
    match isParagraphInTable p.bounding_regions table_polygons with
    | none => none
    | some true => filterSurvivors table_polygons ps
    | some false => (filterSurvivors table_polygons ps).map (p :: ·)

/-- The page_numbers loop of process_pdf: a paragraph with role
"pageNumber" contributes int(content) (a ValueError aborts the pipeline:
none); every other paragraph contributes the sentinel -1. -/
def pageNumbersOf : List Paragraph → Option (List Int)
  | [] => some []
  | p :: ps =>
    if p.role = some "pageNumber" then
      match pyInt p.content with
      | none => none
      | some n => (pageNumbersOf ps).map (n :: ·)
    else (pageNumbersOf ps).map ((-1 : Int) :: ·)

/-- The list comprehension rendering every table to markdown, in order,
propagating any failure of convert_table_to_markdown. -/
def renderTables : List (List TableCell) → Option (List String)
  | [] => some []
  | t :: ts =>
    match convert_table_to_markdown t with
    | none => none
    | some s => (renderTables ts).map (s :: ·)

/-- The dictionary returned by process_pdf. -/
structure ProcessOutput where
  text : String
  tables : List (List TableCell)
  chunks : List String
  metadatas : List String
deriving DecidableEq

/-- Model of the pure core of process_pdf, from a materialised analysis
result to the returned dictionary (file I/O and the service call sit
outside the model).  Tables are flattened, table polygons collected,
paragraphs filtered by table containment, page numbers built from
"pageNumber" roles and resolved, and the parallel chunk and metadata lists
are assembled: page citations for surviving paragraphs first, then one
1-indexed table citation per table. -/
def process_pdf (result : AnalysisResult) : Option ProcessOutput :=
  let tables := result.tables.map Table.cells
  let table_polygons := tablePolygonsOf result.tables
  match filterSurvivors table_polygons result.paragraphs with
  | none => none
  | some extracted_paragraphs =>
    let extracted_paragraphs_contents := extracted_paragraphs.map Paragraph.content
    match pageNumbersOf extracted_paragraphs with
    | none => none
    | some page_numbers =>
      let resolved := replace_with_nearest_positive page_numbers
      let metadatas := resolved.map (fun n => "Page " ++ toString n) ++
        (List.range result.tables.length).map (fun k => "Table: " ++ toString (k + 1))
      match renderTables tables with
      | none => none
      | some rendered =>
        some {
          text := String.intercalate "\n" extracted_paragraphs_contents
          tables := tables
          chunks := extracted_paragraphs_contents ++ rendered
          metadatas := metadatas
        }

/-- The unit square polygon of the spec property P1. -/
def unitSquare : List Point := [⟨0, 0⟩, ⟨1, 0⟩, ⟨1, 1⟩, ⟨0, 1⟩]

/-- A small valid polygon used as a concrete bounding region. -/
def triangle : List Point := [⟨0, 0⟩, ⟨1, 0⟩, ⟨0, 1⟩]

/-- The grid coordinates of a cell, the key of rows_dict. -/
def cellKey (c : TableCell) : Nat × Nat := (c.row_index, c.column_index)

/-- The cell multiset of the spec property P3. -/
def exampleCells : List TableCell := [⟨0, 0, "A"⟩, ⟨0, 1, "B"⟩, ⟨1, 0, "C"⟩]

/-- Two cells sharing the coordinates (0,0): input order decides which
content survives in rows_dict. -/
def dupCellsA : List TableCell := [⟨0, 0, "A"⟩, ⟨0, 0, "B"⟩]

/-- The same two cells in the opposite order. -/
def dupCellsB : List TableCell := [⟨0, 0, "B"⟩, ⟨0, 0, "A"⟩]

/-- A one-paragraph, zero-table analysis result. -/
def exampleResultA : AnalysisResult := ⟨[], [⟨"hello", none, [⟨triangle⟩]⟩]⟩

/-- A one-table, one-paragraph analysis result: the paragraph carries a
pageNumber role with content "1". -/
def exampleResultB : AnalysisResult :=
  ⟨[⟨[⟨0, 0, "A"⟩], []⟩], [⟨"1", some "pageNumber", [⟨triangle⟩]⟩]⟩

/-- The output process_pdf produces on exampleResultB. -/
def exampleOutputB : ProcessOutput :=
  ⟨"1", [[⟨0, 0, "A"⟩]], ["1", "| A |\n| --- |"], ["Page 1", "Table: 1"]⟩

/-- A surviving paragraph tagged pageNumber whose content is not an integer
literal. -/
def badPageParagraph : Paragraph := ⟨"abc", some "pageNumber", [⟨triangle⟩]⟩

/-- A zero-table analysis result containing badPageParagraph. -/
def exampleResultC : AnalysisResult := ⟨[], [badPageParagraph]⟩

end ArchiCodeGuide

namespace ArchiCodeGuide

/-- Claim C1, counterexample: on input [-1,-1,3,-1,5,-1] the resolver does
NOT return [3,3,3,5,5,5]: the trailing sentinel is filled with the leftmost
known value 3, not with the preceding value 5. -/
theorem C1_counterexample :
    replace_with_nearest_positive [-1, -1, 3, -1, 5, -1] ≠ [3, 3, 3, 5, 5, 5] := by
  decide

/-- Claim C1, amended: the page-attribution resolver, applied to the input
sequence [-1,-1,3,-1,5,-1], returns [3,3,3,5,5,3]: the right-to-left pass
fills interior gaps with the nearest following known value, and the
trailing sentinel (which no known value follows) is filled with the
leftmost known value of the array, 3. -/
theorem C1_amended :
    replace_with_nearest_positive [-1, -1, 3, -1, 5, -1] = [3, 3, 3, 5, 5, 3] := by
  decide

/-- Claim C2, counterexample: rendering a table whose cell list is empty
does NOT fail: table_rows[0] exists (max_row and max_col are initialised to
0, so a 1 x 1 grid of empty strings is built), hence no index or lookup
error is raised. -/
theorem C2_counterexample :
    convert_table_to_markdown [] ≠ none := by
  decide

/-- Claim C2, amended: rendering a table whose cell list is empty succeeds
and returns the 1 x 1 grid text block consisting of a single empty header
cell and the separator row, because max_row and max_col default to 0 and
every missing coordinate renders as the empty string. -/
theorem C2_amended :
    convert_table_to_markdown [] = some "|  |\n| --- |" := by
  decide

/-- The first component of rightPass is the leftmost entry of the rewritten
array when the array is non-empty. -/
theorem rightPass_length (arr : List Int) : (rightPass arr).2.length = arr.length := by
  induction arr with
  | nil => rfl
  | cons x xs ih => simp [rightPass, ih]

/-- The resolver preserves the length of its input. -/
theorem replace_length (arr : List Int) :
    (replace_with_nearest_positive arr).length = arr.length := by
  simp [replace_with_nearest_positive, rightPass_length]

/-- Claim C4: the page-attribution resolver is total (it is a function into
List Int, so it never fails), the empty input returns the empty output, and
the output always has the same length as the input. -/
theorem C4_resolver_total :
    replace_with_nearest_positive [] = [] ∧
    ∀ arr : List Int, (replace_with_nearest_positive arr).length = arr.length :=
  ⟨rfl, replace_length⟩

/-- Claim C7: for the unit square polygon [(0,0),(1,0),(1,1),(0,1)], the
point-in-polygon test returns true at (1/2, 1/2) and false at (2, 2). -/
theorem C7_unit_square :
    isPointInPolygon ((1 : ℚ) / 2, (1 : ℚ) / 2) unitSquare = some true ∧
    isPointInPolygon ((2 : ℚ), (2 : ℚ)) unitSquare = some false := by
  constructor <;> norm_num [isPointInPolygon, unitSquare, edgeStep]

/-- Claim C6: the containment classifier fails (IndexError, modelled by
none) whenever the bounding-region list is empty; and for every non-empty
bounding-region list whose regions carry valid (non-empty) polygons, an
empty table-polygon list yields the classification false. -/
theorem C6_classifier_contract :
    (∀ table_polygons : List (List Point),
      isParagraphInTable [] table_polygons = none) ∧
    ∀ regions : List BoundingRegion, regions ≠ [] →
      (∀ r ∈ regions, r.polygon ≠ []) →
      isParagraphInTable regions [] = some false := by
  constructor
  · intro table_polygons
    rfl
  · intro regions hne hpoly
    have hpos : 0 < regions.length := List.length_pos.mpr hne
    have hlt : regions.length / 2 < regions.length := Nat.div_lt_self hpos one_lt_two
    have hmem : regions[regions.length / 2] ∈ regions := List.getElem_mem hlt
    have hnemp : (regions[regions.length / 2]).polygon ≠ [] := hpoly _ hmem
    simp only [isParagraphInTable, List.getElem?_eq_getElem hlt]
    rw [if_neg fun h0 => hnemp (List.length_eq_zero.mp h0)]
    rfl

/-- Witness for C6 at concrete inputs: the empty region list fails, and a
one-region paragraph with a triangular polygon tested against zero table
polygons is classified as not in a table. -/
theorem C6_witness :
    isParagraphInTable ([] : List BoundingRegion) [] = none ∧
    isParagraphInTable [⟨triangle⟩] [] = some false :=
  ⟨C6_classifier_contract.1 [],
   C6_classifier_contract.2 [⟨triangle⟩] (by decide) (by decide)⟩

/-- With pairwise-distinct cell keys, at most one cell of the list matches
a fixed (row, column) coordinate pair. -/
theorem filter_key_length_le_one (cells : List TableCell) (r c : Nat)
    (h : cells.Pairwise fun a b => cellKey a ≠ cellKey b) :
    (cells.filter fun cell =>
      cell.row_index == r && cell.column_index == c).length ≤ 1 := by
  induction cells with
  | nil => simp
  | cons a l ih =>
    rw [List.pairwise_cons] at h
    rw [List.filter_cons]
    by_cases hp : (a.row_index == r && a.column_index == c) = true
    · rw [if_pos hp]
      have hnil : (l.filter fun cell =>
          cell.row_index == r && cell.column_index == c) = [] := by
        rw [List.filter_eq_nil_iff]
        intro b hb hpb
        have h1 : a.row_index = r ∧ a.column_index = c := by
          simpa [Bool.and_eq_true, beq_iff_eq] using hp
        have h2 : b.row_index = r ∧ b.column_index = c := by
          simpa [Bool.and_eq_true, beq_iff_eq] using hpb
        exact h.1 b hb (by simp [cellKey, h1.1, h1.2, h2.1, h2.2])
      rw [hnil]
      simp
    · rw [if_neg hp]
      exact ih h.2

/-- Permuting a duplicate-free cell list does not change which cell is
found at a fixed coordinate pair. -/
theorem filter_key_eq_of_perm {cells₁ cells₂ : List TableCell}
    (hp : cells₁.Perm cells₂)
    (hd : cells₁.Pairwise fun a b => cellKey a ≠ cellKey b) (r c : Nat) :
    (cells₁.filter fun cell => cell.row_index == r && cell.column_index == c) =
    (cells₂.filter fun cell => cell.row_index == r && cell.column_index == c) := by
  have hf := hp.filter fun cell => cell.row_index == r && cell.column_index == c
  have h1 := filter_key_length_le_one cells₁ r c hd
  cases hc : cells₁.filter fun cell =>
      cell.row_index == r && cell.column_index == c with
  | nil =>
    rw [hc] at hf
    exact hf.nil_eq
  | cons x xs =>
    rw [hc] at hf h1
    have hxs : xs = [] := by
      cases xs with
      | nil => rfl
      | cons y ys =>
        simp only [List.length_cons] at h1
        omega
    subst hxs
    exact hf.symm.eq_singleton.symm

/-- gridCell is invariant under permutation of a duplicate-free cell
list. -/
theorem gridCell_eq_of_perm {cells₁ cells₂ : List TableCell}
    (hp : cells₁.Perm cells₂)
    (hd : cells₁.Pairwise fun a b => cellKey a ≠ cellKey b) (r c : Nat) :
    gridCell cells₁ r c = gridCell cells₂ r c := by
  unfold gridCell
  rw [filter_key_eq_of_perm hp hd r c]

/-- Folding max is insensitive to the order of the last two elements. -/
theorem nat_max_fold_comm (z x y : Nat) : max (max z x) y = max (max z y) x := by
  rw [Nat.max_assoc, Nat.max_comm x y, ← Nat.max_assoc]

/-- max_row is invariant under permutation of the cell list. -/
theorem max_row_eq_of_perm {cells₁ cells₂ : List TableCell}
    (hp : cells₁.Perm cells₂) : max_row cells₁ = max_row cells₂ :=
  hp.foldl_eq' (fun x _ y _ z => nat_max_fold_comm z x.row_index y.row_index) 0

/-- max_col is invariant under permutation of the cell list. -/
theorem max_col_eq_of_perm {cells₁ cells₂ : List TableCell}
    (hp : cells₁.Perm cells₂) : max_col cells₁ = max_col cells₂ :=
  hp.foldl_eq' (fun x _ y _ z => nat_max_fold_comm z x.column_index y.column_index) 0

/-- The dense grid of convert_table_to_markdown is invariant under
permutation of a duplicate-free cell list. -/
theorem tableRows_eq_of_perm {cells₁ cells₂ : List TableCell}
    (hp : cells₁.Perm cells₂)
    (hd : cells₁.Pairwise fun a b => cellKey a ≠ cellKey b) :
    tableRows cells₁ = tableRows cells₂ := by
  unfold tableRows
  rw [max_row_eq_of_perm hp, max_col_eq_of_perm hp]
  refine List.map_congr_left fun r _ => ?_
  refine List.map_congr_left fun c _ => ?_
  exact gridCell_eq_of_perm hp hd r c

/-- Rendering is invariant under permutation of a duplicate-free cell
list. -/
theorem markdown_eq_of_perm {cells₁ cells₂ : List TableCell}
    (hp : cells₁.Perm cells₂)
    (hd : cells₁.Pairwise fun a b => cellKey a ≠ cellKey b) :
    convert_table_to_markdown cells₁ = convert_table_to_markdown cells₂ := by
  unfold convert_table_to_markdown
  rw [tableRows_eq_of_perm hp hd]

/-- Claim C3, counterexample: with two cells sharing the coordinates
(0,0), the later cell overwrites the earlier one in rows_dict, so the two
orderings of the same multiset render differently: permutation invariance
fails for arbitrary multisets. -/
theorem C3_counterexample :
    dupCellsA.Perm dupCellsB ∧
    convert_table_to_markdown dupCellsA ≠ convert_table_to_markdown dupCellsB := by
  constructor
  · decide
  · decide

/-- Claim C3, amended: for the spec example multiset
(0,0,"A"), (0,1,"B"), (1,0,"C"), whose coordinate pairs are pairwise
distinct, rendering is invariant under every permutation of the input
order, and the rendered block is the 2 x 2 grid whose (1,1) entry is an
empty cell.  (For multisets with duplicate coordinates the invariance
fails, as the last occurrence in input order overwrites earlier ones.) -/
theorem C3_amended_determinism :
    (∀ l : List TableCell, l.Perm exampleCells →
      convert_table_to_markdown l = convert_table_to_markdown exampleCells) ∧
    convert_table_to_markdown exampleCells =
      some "| A | B |\n| --- | --- |\n| C |  |" := by
  constructor
  · intro l hl
    have hd : exampleCells.Pairwise fun a b => cellKey a ≠ cellKey b := by decide
    have hdl : l.Pairwise fun a b => cellKey a ≠ cellKey b :=
      (hl.pairwise_iff fun h e => h e.symm).mpr hd
    exact markdown_eq_of_perm hl hdl
  · decide

/-- Witness for C3 at a concrete permutation of the example cells. -/
theorem C3_witness :
    convert_table_to_markdown [⟨1, 0, "C"⟩, ⟨0, 0, "A"⟩, ⟨0, 1, "B"⟩] =
    convert_table_to_markdown exampleCells :=
  C3_amended_determinism.1 _ (by decide)

/-- Claim C10: for every cell list whose coordinate pairs are pairwise
distinct, the rendered table text is invariant under any permutation of
the input list. -/
theorem C10_perm_invariance :
    ∀ cells₁ cells₂ : List TableCell,
      cells₁.Pairwise (fun a b => cellKey a ≠ cellKey b) → cells₁.Perm cells₂ →
      convert_table_to_markdown cells₁ = convert_table_to_markdown cells₂ :=
  fun _ _ hd hp => markdown_eq_of_perm hp hd

/-- Witness for C10 at a concrete duplicate-free pair of permuted lists. -/
theorem C10_witness :
    convert_table_to_markdown [⟨1, 1, "D"⟩, ⟨0, 0, "A"⟩] =
    convert_table_to_markdown [⟨0, 0, "A"⟩, ⟨1, 1, "D"⟩] :=
  C10_perm_invariance [⟨1, 1, "D"⟩, ⟨0, 0, "A"⟩] [⟨0, 0, "A"⟩, ⟨1, 1, "D"⟩]
    (by decide) (by decide)

/-- A successful run of the paragraph filter keeps exactly the surviving
paragraphs, in the original order. -/
theorem filterSurvivors_eq {polys : List (List Point)} :
    ∀ {ps s : List Paragraph}, filterSurvivors polys ps = some s →
      s = ps.filter (survives polys) := by
  intro ps
  induction ps with
  | nil =>
    intro s h
    cases h
    rfl
  | cons p ps ih =>
    intro s h
    unfold filterSurvivors at h
    cases hc : isParagraphInTable p.bounding_regions polys with
    | none =>
      rw [hc] at h
      exact absurd h (by simp)
    | some b =>
      rw [hc] at h
      cases b with
      | false =>
        cases hs : filterSurvivors polys ps with
        | none =>
          rw [hs] at h
          exact absurd h (by simp)
        | some s0 =>
          rw [hs] at h
          simp only [Option.map_some', Option.some.injEq] at h
          have hsurv : survives polys p = true := by
            simp [survives, hc]
          simp [← h, List.filter_cons, hsurv, ih hs]
      | true =>
        have hsurv : survives polys p = false := by
          simp [survives, hc]
        simp [List.filter_cons, hsurv, ih h]

/-- A successful page-number pass produces one entry per paragraph. -/
theorem pageNumbersOf_length :
    ∀ {ps : List Paragraph} {ns : List Int}, pageNumbersOf ps = some ns →
      ns.length = ps.length := by
  intro ps
  induction ps with
  | nil =>
    intro ns h
    cases h
    rfl
  | cons p ps ih =>
    intro ns h
    unfold pageNumbersOf at h
    by_cases hr : p.role = some "pageNumber"
    · rw [if_pos hr] at h
      cases hc : pyInt p.content with
      | none =>
        rw [hc] at h
        exact absurd h (by simp)
      | some n =>
        rw [hc] at h
        cases hs : pageNumbersOf ps with
        | none =>
          rw [hs] at h
          exact absurd h (by simp)
        | some ns0 =>
          rw [hs] at h
          simp only [Option.map_some', Option.some.injEq] at h
          simp [← h, ih hs]
    · rw [if_neg hr] at h
      cases hs : pageNumbersOf ps with
      | none =>
        rw [hs] at h
        exact absurd h (by simp)
      | some ns0 =>
        rw [hs] at h
        simp only [Option.map_some', Option.some.injEq] at h
        simp [← h, ih hs]

/-- If some paragraph of the list has the pageNumber role and unparseable
content, the page-number pass fails. -/
theorem pageNumbersOf_none {p : Paragraph} :
    ∀ {ps : List Paragraph}, p ∈ ps → p.role = some "pageNumber" →
      pyInt p.content = none → pageNumbersOf ps = none := by
  intro ps
  induction ps with
  | nil =>
    intro hmem
    exact absurd hmem (List.not_mem_nil p)
  | cons q ps ih =>
    intro hmem hrole hbad
    unfold pageNumbersOf
    rcases List.mem_cons.mp hmem with heq | hmem2
    · subst heq
      rw [if_pos hrole, hbad]
    · by_cases hr : q.role = some "pageNumber"
      · rw [if_pos hr]
        cases hc : pyInt q.content with
        | none => rfl
        | some n =>
          rw [ih hmem2 hrole hbad]
          rfl
      · rw [if_neg hr, ih hmem2 hrole hbad]
        rfl

/-- A successful table-rendering pass renders each table in order. -/
theorem renderTables_eq :
    ∀ {ts : List (List TableCell)} {rs : List String}, renderTables ts = some rs →
      rs = ts.map fun t => (convert_table_to_markdown t).getD "" := by
  intro ts
  induction ts with
  | nil =>
    intro rs h
    cases h
    rfl
  | cons t ts ih =>
    intro rs h
    unfold renderTables at h
    cases hc : convert_table_to_markdown t with
    | none =>
      rw [hc] at h
      exact absurd h (by simp)
    | some s =>
      rw [hc] at h
      cases hs : renderTables ts with
      | none =>
        rw [hs] at h
        exact absurd h (by simp)
      | some rs0 =>
        rw [hs] at h
        simp only [Option.map_some', Option.some.injEq] at h
        simp [← h, hc, ih hs]

/-- Anatomy of a successful process_pdf run: the three fallible passes all
succeeded and the output fields are assembled from their results. -/
theorem process_pdf_some {result : AnalysisResult} {out : ProcessOutput}
    (h : process_pdf result = some out) :
    ∃ survivors page_numbers rendered,
      filterSurvivors (tablePolygonsOf result.tables) result.paragraphs = some survivors ∧
      pageNumbersOf survivors = some page_numbers ∧
      renderTables (result.tables.map Table.cells) = some rendered ∧
      out = ⟨String.intercalate "\n" (survivors.map Paragraph.content),
             result.tables.map Table.cells,
             survivors.map Paragraph.content ++ rendered,
             (replace_with_nearest_positive page_numbers).map
                 (fun n => "Page " ++ toString n) ++
               (List.range result.tables.length).map
                 fun k => "Table: " ++ toString (k + 1)⟩ := by
  simp only [process_pdf] at h
  split at h
  · exact absurd h (by simp)
  · rename_i survivors hfs
    split at h
    · exact absurd h (by simp)
    · rename_i page_numbers hpn
      split at h
      · exact absurd h (by simp)
      · rename_i rendered hrt
        exact ⟨survivors, page_numbers, rendered, hfs, hpn, hrt,
          (Option.some.inj h).symm⟩

/-- Claim C5: in a successful pipeline run, the chunk list consists of
exactly the contents of the paragraphs classified as outside every table
polygon, in their original order, followed by the rendered tables; every
paragraph classified as inside a table is excluded. -/
theorem C5_table_exclusion :
    ∀ (result : AnalysisResult) (out : ProcessOutput), process_pdf result = some out →
      out.chunks =
        (result.paragraphs.filter (survives (tablePolygonsOf result.tables))).map
          Paragraph.content ++
        result.tables.map fun t => (convert_table_to_markdown t.cells).getD "" := by
  intro result out h
  obtain ⟨survivors, page_numbers, rendered, hfs, hpn, hrt, hout⟩ := process_pdf_some h
  subst hout
  show survivors.map Paragraph.content ++ rendered = _
  rw [filterSurvivors_eq hfs, renderTables_eq hrt, List.map_map]
  rfl

/-- Witness for C5 at a concrete one-paragraph, zero-table run. -/
theorem C5_witness :
    (ProcessOutput.mk "hello" [] ["hello"] ["Page -1"]).chunks =
      (exampleResultA.paragraphs.filter
        (survives (tablePolygonsOf exampleResultA.tables))).map Paragraph.content ++
      exampleResultA.tables.map
        (fun t => (convert_table_to_markdown t.cells).getD "") :=
  C5_table_exclusion exampleResultA ⟨"hello", [], ["hello"], ["Page -1"]⟩ (by rfl)

/-- Claim C8: in a successful pipeline run the chunk and citation lists
have equal length; the citation list is a block of page citations followed
by a block of table citations (so every table citation comes after every
text citation); and the k-th table citation is the string built from the
1-indexed table number k+1. -/
theorem C8_chunk_citation_alignment :
    ∀ (result : AnalysisResult) (out : ProcessOutput), process_pdf result = some out →
      out.chunks.length = out.metadatas.length ∧
      (∃ pages : List Int,
        out.metadatas = pages.map (fun n => "Page " ++ toString n) ++
          (List.range result.tables.length).map
            fun k => "Table: " ++ toString (k + 1)) ∧
      ∀ k, k < result.tables.length →
        out.metadatas[out.metadatas.length - result.tables.length + k]? =
          some ("Table: " ++ toString (k + 1)) := by
  intro result out h
  obtain ⟨survivors, page_numbers, rendered, hfs, hpn, hrt, hout⟩ := process_pdf_some h
  subst hout
  have hrend : rendered.length = result.tables.length := by
    rw [renderTables_eq hrt]
    simp
  have hpages : (replace_with_nearest_positive page_numbers).length =
      survivors.length := by
    rw [replace_length, pageNumbersOf_length hpn]
  refine ⟨?_, ⟨replace_with_nearest_positive page_numbers, rfl⟩, ?_⟩
  · show (survivors.map Paragraph.content ++ rendered).length = _
    simp only [List.length_append, List.length_map, List.length_range]
    rw [hrend, hpages]
  · intro k hk
    show ((replace_with_nearest_positive page_numbers).map
        (fun n => "Page " ++ toString n) ++
      (List.range result.tables.length).map
        (fun k => "Table: " ++ toString (k + 1)))[_]? = _
    have hidx : ((replace_with_nearest_positive page_numbers).map
          (fun n => "Page " ++ toString n) ++
        (List.range result.tables.length).map
          (fun k => "Table: " ++ toString (k + 1))).length -
          result.tables.length + k =
        ((replace_with_nearest_positive page_numbers).map
          (fun n => "Page " ++ toString n)).length + k := by
      simp only [List.length_append, List.length_map, List.length_range]
      omega
    rw [hidx, List.getElem?_append_right (by omega)]
    have hsub : ((replace_with_nearest_positive page_numbers).map
        (fun n => "Page " ++ toString n)).length + k -
        ((replace_with_nearest_positive page_numbers).map
          (fun n => "Page " ++ toString n)).length = k := by
      omega
    rw [hsub, List.getElem?_map, List.getElem?_range hk]
    rfl

/-- Witness for C8 at a concrete one-table, one-paragraph run. -/
theorem C8_witness :
    exampleOutputB.chunks.length = exampleOutputB.metadatas.length ∧
    (∃ pages : List Int,
      exampleOutputB.metadatas = pages.map (fun n => "Page " ++ toString n) ++
        (List.range exampleResultB.tables.length).map
          fun k => "Table: " ++ toString (k + 1)) ∧
    ∀ k, k < exampleResultB.tables.length →
      exampleOutputB.metadatas[exampleOutputB.metadatas.length -
          exampleResultB.tables.length + k]? =
        some ("Table: " ++ toString (k + 1)) :=
  C8_chunk_citation_alignment exampleResultB exampleOutputB (by rfl)

/-- Claim C9: if some paragraph survives the table filter, carries the
pageNumber role, and its content is not a valid integer literal, then
process_pdf fails (none): the resolver's never-fails contract does not
cover the int() parsing step. -/
theorem C9_bad_page_number_aborts :
    ∀ (result : AnalysisResult) (p : Paragraph), p ∈ result.paragraphs →
      isParagraphInTable p.bounding_regions (tablePolygonsOf result.tables) =
        some false →
      p.role = some "pageNumber" → pyInt p.content = none →
      process_pdf result = none := by
  intro result p hmem hclass hrole hbad
  simp only [process_pdf]
  split
  · rfl
  · rename_i survivors hfs
    have hpmem : p ∈ survivors := by
      rw [filterSurvivors_eq hfs]
      exact List.mem_filter.mpr ⟨hmem, by simp [survives, hclass]⟩
    rw [pageNumbersOf_none hpmem hrole hbad]

/-- Witness for C9 at a concrete run whose only paragraph is tagged
pageNumber with the non-numeric content "abc". -/
theorem C9_witness : process_pdf exampleResultC = none :=
  C9_bad_page_number_aborts exampleResultC badPageParagraph (by decide)
    (by rfl) (by rfl) (by rfl)

end ArchiCodeGuide
